import Mathlib

/-!
Shallow embedding of the libuv WASI platform stub backend
(src/unix/wasi-stubs: uv__platform_loop_init, uv__platform_loop_delete,
uv__io_poll, uv__io_check_fd, uv__platform_invalidate_fd, uv__io_fork,
uv__fs_event_close, if_nametoindex, uv_setup_args).

C ints are modelled as Lean Int; C division and remainder truncate toward
zero, which is Int.tdiv and Int.tmod.  Side effects are made explicit:
functions that receive a loop pointer return the (unchanged) loop, the
nanosleep request issued by uv__io_poll is returned as an Option timespec,
and the errno write performed by uv__io_fork is a field of its result.
-/

namespace UvWasi

/-- Modelled from the spec: the uv_loop_t record itself is declared in the
engine headers, which are not among the sources; spec section 3 describes a
Loop as a collection of active handles, a monotonic now timestamp and a
platform-state slot (empty on this backend).  The stub functions below never
read or write any of these fields. -/
structure uv_loop_t where
  active_handles : Nat
  time : Nat
  platform_state : Unit
deriving DecidableEq

/-- Modelled from the spec: a filesystem-change-watch handle; the backend
treats it as opaque and never establishes an underlying watch. -/
structure uv_fs_event_t where
  id : Nat
deriving DecidableEq

/-- POSIX struct timespec as filled in by uv__io_poll: whole seconds plus
nanoseconds. -/
structure timespec where
  tv_sec : Int
  tv_nsec : Int
deriving DecidableEq

/-- errno value for "function not implemented" (ENOSYS is 52 in wasi-libc,
the libc of this port).  The claims depend only on it being one fixed
nonzero code. -/
def ENOSYS : Int := 52

/-- uv__platform_loop_init: returns 0 and touches nothing.  The pair is
(return value, loop after the call). -/
def uv__platform_loop_init (loop : uv_loop_t) : Int × uv_loop_t :=
  (0, loop)

/-- uv__platform_loop_delete: no-op. -/
def uv__platform_loop_delete (loop : uv_loop_t) : uv_loop_t :=
  loop

/-- uv__io_poll: if timeout > 0, build ts with tv_sec = timeout / 1000 and
tv_nsec = (timeout % 1000) * 1000000 and nanosleep for ts; otherwise return
at once.  The second component records the sleep request passed to
nanosleep (none when no sleep is performed). -/
def uv__io_poll (loop : uv_loop_t) (timeout : Int) : uv_loop_t × Option timespec :=
  if timeout > 0 then
    (loop, some { tv_sec := Int.tdiv timeout 1000,
                  tv_nsec := (Int.tmod timeout 1000) * 1000000 })
  else
    (loop, none)

/-- Total nanoseconds of a recorded sleep request; 0 when none was issued. -/
def sleepNanos : Option timespec → Int
  | none => 0
  | some ts => ts.tv_sec * 1000000000 + ts.tv_nsec

/-- uv__io_check_fd: returns 0 unconditionally. -/
def uv__io_check_fd (loop : uv_loop_t) (fd : Int) : Int :=
  0

/-- uv__platform_invalidate_fd: no-op; the loop is returned unchanged. -/
def uv__platform_invalidate_fd (loop : uv_loop_t) (fd : Int) : uv_loop_t :=
  loop

/-- Result of uv__io_fork: the return value, the value written to errno,
and the loop after the call. -/
structure ForkResult where
  ret : Int
  errno : Int
  loop : uv_loop_t
deriving DecidableEq

/-- uv__io_fork: sets errno to ENOSYS and returns -ENOSYS. -/
def uv__io_fork (loop : uv_loop_t) : ForkResult :=
  { ret := -ENOSYS, errno := ENOSYS, loop := loop }

/-- uv__fs_event_close: no-op. -/
def uv__fs_event_close (handle : uv_fs_event_t) : uv_fs_event_t :=
  handle

/-- if_nametoindex: returns 0 (unsigned int) for every name. -/
def if_nametoindex (ifname : String) : Nat :=
  0

/-- uv_setup_args: returns argv unchanged. -/
def uv_setup_args (argc : Int) (argv : List String) : List String :=
  argv

/-- n successive calls of uv__platform_invalidate_fd on the same loop and
descriptor. -/
def invalidate_iter (loop : uv_loop_t) (fd : Int) : Nat → uv_loop_t
  | 0 => loop
  | n + 1 => uv__platform_invalidate_fd (invalidate_iter loop fd n) fd

/-- A concrete loop value used by the witnesses. -/
def loop0 : uv_loop_t :=
  { active_handles := 0, time := 0, platform_state := () }

/-- Helper: the shape of the poll result for a positive timeout. -/
theorem uv__io_poll_pos_eq (loop : uv_loop_t) (t : Int) (h : 0 < t) :
    uv__io_poll loop t =
      (loop, some { tv_sec := Int.tdiv t 1000,
                    tv_nsec := (Int.tmod t 1000) * 1000000 }) := by
  simp [uv__io_poll, h]

/-- Helper: repeated invalidation never changes the loop. -/
theorem invalidate_iter_eq_loop (loop : uv_loop_t) (fd : Int) :
    ∀ n : Nat, invalidate_iter loop fd n = loop := by
  intro n
  induction n with
  | zero => rfl
  | succ k ih => simpa [invalidate_iter, uv__platform_invalidate_fd] using ih

/-- C1: for every non-negative timeout t, uv__io_poll requests a sleep of
exactly t milliseconds (so, under a faithful nanosleep, control returns no
earlier than t milliseconds after invocation), and for every t <= 0 it
returns immediately, performing no sleep. -/
theorem uv__io_poll_timeout_contract (loop : uv_loop_t) (t : Int) :
    (0 ≤ t → sleepNanos (uv__io_poll loop t).2 = t * 1000000) ∧
    (t ≤ 0 → (uv__io_poll loop t).2 = none) := by
  constructor
  · intro h
    by_cases hpos : 0 < t
    · rw [uv__io_poll_pos_eq loop t hpos]
      simp only [sleepNanos]
      rw [Int.tdiv_eq_ediv h (by norm_num), Int.tmod_eq_emod h (by norm_num)]
      omega
    · have ht : t = 0 := by omega
      subst ht
      norm_num [uv__io_poll, sleepNanos]
  · intro h
    simp only [uv__io_poll]
    rw [if_neg (by omega)]

/-- Witness for C1 at t = 5 and t = -3. -/
theorem uv__io_poll_timeout_contract_witness :
    sleepNanos (uv__io_poll loop0 5).2 = 5 * 1000000 ∧
    (uv__io_poll loop0 (-3)).2 = none :=
  ⟨(uv__io_poll_timeout_contract loop0 5).1 (by norm_num),
   (uv__io_poll_timeout_contract loop0 (-3)).2 (by norm_num)⟩

/-- C2: for every positive timeout t, the timespec built by uv__io_poll has
tv_sec = t / 1000 and tv_nsec = (t % 1000) * 1000000 (C truncating division
and remainder), and the decomposition is lossless:
tv_sec * 1000 + tv_nsec / 1000000 = t. -/
theorem uv__io_poll_decomposition_lossless (loop : uv_loop_t) (t : Int)
    (h : 0 < t) :
    ∃ ts : timespec, (uv__io_poll loop t).2 = some ts ∧
      ts.tv_sec = Int.tdiv t 1000 ∧
      ts.tv_nsec = (Int.tmod t 1000) * 1000000 ∧
      ts.tv_sec * 1000 + Int.tdiv ts.tv_nsec 1000000 = t := by
  rw [uv__io_poll_pos_eq loop t h]
  refine ⟨_, rfl, rfl, rfl, ?_⟩
  simp only
  rw [Int.tmod_eq_emod h.le (by norm_num), Int.tdiv_eq_ediv h.le (by norm_num)]
  have hm : 0 ≤ t % 1000 * 1000000 := by omega
  rw [Int.tdiv_eq_ediv hm (by norm_num)]
  omega

/-- Witness for C2 at t = 1234. -/
theorem uv__io_poll_decomposition_lossless_witness :
    ∃ ts : timespec, (uv__io_poll loop0 1234).2 = some ts ∧
      ts.tv_sec = Int.tdiv 1234 1000 ∧
      ts.tv_nsec = (Int.tmod 1234 1000) * 1000000 ∧
      ts.tv_sec * 1000 + Int.tdiv ts.tv_nsec 1000000 = 1234 :=
  uv__io_poll_decomposition_lossless loop0 1234 (by norm_num)

/-- C3: uv__io_fork always returns -ENOSYS, a fixed nonzero error code,
identical across all loops (never success, never a varying code), and
writes ENOSYS to errno. -/
theorem uv__io_fork_unsupported (l1 l2 : uv_loop_t) :
    (uv__io_fork l1).ret = -ENOSYS ∧
    (uv__io_fork l1).ret ≠ 0 ∧
    (uv__io_fork l1).errno = ENOSYS ∧
    (uv__io_fork l1).ret = (uv__io_fork l2).ret := by
  refine ⟨rfl, ?_, rfl, rfl⟩
  norm_num [uv__io_fork, ENOSYS]

/-- C4: uv__io_check_fd returns the success indicator 0 for every loop and
every integer descriptor, including negative ones. -/
theorem uv__io_check_fd_always_success (loop : uv_loop_t) (fd : Int) :
    uv__io_check_fd loop fd = 0 :=
  rfl

/-- C5: uv_setup_args is the identity transform on argv: the result is the
input list, hence equal to it element for element at every index, for argv
of any length. -/
theorem uv_setup_args_identity (argc : Int) (argv : List String) :
    uv_setup_args argc argv = argv ∧
    ∀ i : Nat, (uv_setup_args argc argv)[i]? = argv[i]? :=
  ⟨rfl, fun _ => rfl⟩

/-- C6: if_nametoindex returns the absent sentinel 0 for every interface
name string, including the empty string. -/
theorem if_nametoindex_absent (ifname : String) :
    if_nametoindex ifname = 0 :=
  rfl

/-- C7: uv__platform_loop_init always succeeds, returning 0, and has no
failure branch; it leaves the loop unchanged. -/
theorem uv__platform_loop_init_always_succeeds (loop : uv_loop_t) :
    (uv__platform_loop_init loop).1 = 0 ∧
    (uv__platform_loop_init loop).2 = loop :=
  ⟨rfl, rfl⟩

/-- C8: uv__platform_invalidate_fd performs no action, and repeating it is
idempotent: for every n >= 1 the state after n calls equals the state after
one call (both equal the original loop), and no error is produced. -/
theorem uv__platform_invalidate_fd_idempotent (loop : uv_loop_t) (fd : Int)
    (n : Nat) (h : 1 ≤ n) :
    invalidate_iter loop fd n = invalidate_iter loop fd 1 ∧
    invalidate_iter loop fd n = loop := by
  constructor
  · rw [invalidate_iter_eq_loop, invalidate_iter_eq_loop]
  · exact invalidate_iter_eq_loop loop fd n

/-- Witness for C8 at n = 5. -/
theorem uv__platform_invalidate_fd_idempotent_witness :
    invalidate_iter loop0 (-1) 5 = invalidate_iter loop0 (-1) 1 ∧
    invalidate_iter loop0 (-1) 5 = loop0 :=
  uv__platform_invalidate_fd_idempotent loop0 (-1) 5 (by norm_num)

/-- C9: on a freshly initialized loop, uv__io_fork returns the unsupported
error -ENOSYS and leaves the loop state entirely unchanged, so a subsequent
uv__io_poll call on the post-fork loop behaves exactly as on the fresh
loop, for every timeout. -/
theorem uv__io_fork_atomic_on_error (loop : uv_loop_t) (t : Int) :
    (uv__io_fork (uv__platform_loop_init loop).2).ret = -ENOSYS ∧
    (uv__io_fork (uv__platform_loop_init loop).2).loop =
      (uv__platform_loop_init loop).2 ∧
    uv__io_poll (uv__io_fork (uv__platform_loop_init loop).2).loop t =
      uv__io_poll (uv__platform_loop_init loop).2 t :=
  ⟨rfl, rfl, rfl⟩

/-- C10: for every positive int timeout (so t < 2^31), the timespec built
by uv__io_poll is well-formed: tv_sec = t / 1000 is non-negative, tv_nsec
satisfies 0 <= tv_nsec < 1000000000, and tv_nsec is bounded by 999000000,
which is below the int maximum 2^31 - 1, so the multiplication cannot
overflow int. -/
theorem uv__io_poll_timespec_wellformed (loop : uv_loop_t) (t : Int)
    (h1 : 0 < t) (h2 : t < 2 ^ 31) :
    ∃ ts : timespec, (uv__io_poll loop t).2 = some ts ∧
      ts.tv_sec = Int.tdiv t 1000 ∧ 0 ≤ ts.tv_sec ∧
      0 ≤ ts.tv_nsec ∧ ts.tv_nsec < 1000000000 ∧
      ts.tv_nsec ≤ 999000000 ∧ (999000000 : Int) < 2 ^ 31 - 1 := by
  rw [uv__io_poll_pos_eq loop t h1]
  have hd : Int.tdiv t 1000 = t / 1000 := Int.tdiv_eq_ediv h1.le (by norm_num)
  have hm : Int.tmod t 1000 = t % 1000 := Int.tmod_eq_emod h1.le (by norm_num)
  refine ⟨_, rfl, rfl, ?_, ?_, ?_, ?_, by norm_num⟩ <;>
    simp only [hd, hm] <;> omega

/-- Witness for C10 at t = 2147483647, the int maximum. -/
theorem uv__io_poll_timespec_wellformed_witness :
    ∃ ts : timespec, (uv__io_poll loop0 2147483647).2 = some ts ∧
      ts.tv_sec = Int.tdiv 2147483647 1000 ∧ 0 ≤ ts.tv_sec ∧
      0 ≤ ts.tv_nsec ∧ ts.tv_nsec < 1000000000 ∧
      ts.tv_nsec ≤ 999000000 ∧ (999000000 : Int) < 2 ^ 31 - 1 :=
  uv__io_poll_timespec_wellformed loop0 2147483647 (by norm_num) (by norm_num)

end UvWasi
